import Mathlib

/-!
Shallow embedding of the four-stage meeting-preparation pipeline of
`src/app.py` (Streamlit + LangGraph application).

Modelling conventions:
* Python strings are Lean `String`s; Python `len`, `s[:n]` and `s.strip()`
  operate on code points, embedded as `String.length`, `pyTake` and
  `pyStrip` over `String.data : List Char`.
* The LangGraph state is the `MeetingState` TypedDict.  The five input
  fields and the timestamp are always present in every state the pipeline
  touches (the orchestrator constructs them unconditionally), so they are
  embedded as plain fields.  The four stage-output fields are embedded as
  `Option String`, where `none` models the key being ABSENT from the
  underlying dict and `some v` models the key being present with value `v`
  (the orchestrator presets them to `some ""`).  This distinction is needed
  to embed Python `dict.get(key, default)` faithfully: the default is used
  only when the key is missing, not when its value is empty.
* A node returns a Python dict holding a partial update; this is the
  `StateUpdate` record of ten optional fields, merged into the running
  state by `applyUpdate` (LangGraph merges the returned dict key by key).
* The external SerpAPI search tool and the ChatOpenAI completion client
  are black boxes that either return a string or raise; they are embedded
  as functions into `Except String String`, where `Except.error e` models
  a raised exception whose `str()` is `e`.  A stage's `try/except` block
  becomes a `match` on those results.
-/

namespace MeetApp

set_option maxRecDepth 4000

/-- Python slice `s[:n]` (by code points). -/
def pyTake (s : String) (n : Nat) : String := String.mk (s.data.take n)

/-- Python `s.strip()` (drops leading and trailing whitespace). -/
def pyStrip (s : String) : String :=
  String.mk (((s.data.dropWhile Char.isWhitespace).reverse.dropWhile Char.isWhitespace).reverse)

/-- `pat` occurs as a contiguous substring of `s`. -/
def strContains (s pat : String) : Prop := pat.data <:+: s.data

/-- `s` starts with `pat`. -/
def strStartsWith (s pat : String) : Prop := pat.data <+: s.data

instance (s pat : String) : Decidable (strContains s pat) :=
  inferInstanceAs (Decidable (pat.data <:+: s.data))

instance (s pat : String) : Decidable (strStartsWith s pat) :=
  inferInstanceAs (Decidable (pat.data <+: s.data))

/-- The `MeetingState` TypedDict of `src/app.py` (see the modelling notes
above for why the four output fields are `Option String`). -/
structure MeetingState where
  company_name : String
  meeting_objective : String
  attendees : String
  duration : Nat
  focus_areas : String
  context_analysis : Option String
  industry_analysis : Option String
  strategy : Option String
  executive_brief : Option String
  timestamp : String
deriving DecidableEq

/-- The partial-update dict a LangGraph node returns: any subset of the
state keys may be present. -/
structure StateUpdate where
  company_name : Option String := none
  meeting_objective : Option String := none
  attendees : Option String := none
  duration : Option Nat := none
  focus_areas : Option String := none
  context_analysis : Option String := none
  industry_analysis : Option String := none
  strategy : Option String := none
  executive_brief : Option String := none
  timestamp : Option String := none
deriving DecidableEq

/-- LangGraph merging of a node's returned dict into the running state:
every key present in the update overwrites the state's entry. -/
def applyUpdate (s : MeetingState) (u : StateUpdate) : MeetingState where
  company_name := u.company_name.getD s.company_name
  meeting_objective := u.meeting_objective.getD s.meeting_objective
  attendees := u.attendees.getD s.attendees
  duration := u.duration.getD s.duration
  focus_areas := u.focus_areas.getD s.focus_areas
  context_analysis := match u.context_analysis with
    | some v => some v
    | none => s.context_analysis
  industry_analysis := match u.industry_analysis with
    | some v => some v
    | none => s.industry_analysis
  strategy := match u.strategy with
    | some v => some v
    | none => s.strategy
  executive_brief := match u.executive_brief with
    | some v => some v
    | none => s.executive_brief
  timestamp := u.timestamp.getD s.timestamp

/-- The SerpAPI search tool: query to results, or a raised exception. -/
def SearchClient : Type := String → Except String String

/-- The ChatOpenAI completion client: prompt to generated text, or a
raised exception. -/
def CompletionClient : Type := String → Except String String

/-- `validate_inputs` of `src/app.py` (lines 77-87): emptiness checks on
the stripped strings, then a minimum-length check on the raw company
name. -/
def validate_inputs (company objective attendees : String) : Option String :=
  if pyStrip company = "" then some "Nome da empresa é obrigatório"
  else if pyStrip objective = "" then some "Objetivo da reunião é obrigatório"
  else if pyStrip attendees = "" then some "Lista de participantes é obrigatória"
  else if company.length < 2 then some "Nome da empresa deve ter pelo menos 2 caracteres"
  else none

/-- Stage-1 search query (line 98). -/
def contextQuery (s : MeetingState) : String :=
  "\"" ++ s.company_name ++ "\" notícias recentes, produtos e serviços 2024 2025"

/-- Stage-1 prompt up to the interpolated (truncated) search results
(lines 101-110). -/
def contextPromptPre (s : MeetingState) : String :=
  "\n        Você é um analista de negócios sênior. Sua tarefa é analisar o contexto para uma reunião com a empresa \x27" ++
  s.company_name ++
  "\x27.\n\n        **DADOS DA REUNIÃO:**\n        - Objetivo: " ++
  s.meeting_objective ++
  "\n        - Participantes: " ++
  s.attendees ++
  "\n        - Duração: " ++
  toString s.duration ++
  " minutos\n\n        **RESULTADOS DA PESQUISA WEB:**\n        "

/-- Stage-1 prompt after the interpolated search results (lines 110-118). -/
def contextPromptPost : String :=
  "\n\n        **INSTRUÇÃO:**\n        Com base nos dados, gere uma análise de contexto concisa em markdown, incluindo:\n        1.  **Perfil da Empresa:** Setor, porte e posicionamento de mercado.\n        2.  **Notícias Relevantes:** Principais acontecimentos recentes.\n        3.  **Produtos/Serviços Chave:** O que a empresa oferece.\n        4.  **Relevância para a Reunião:** Como este contexto impacta o objetivo da reunião.\n        "

/-- Stage-1 prompt f-string (lines 101-118); `search_results[:3000]` is
interpolated between the fixed parts. -/
def contextPrompt (s : MeetingState) (search_results : String) : String :=
  contextPromptPre s ++ pyTake search_results 3000 ++ contextPromptPost

/-- Stage-1 failure placeholder f-string (line 126). -/
def contextFailMsg (e : String) : String :=
  "⚠️ Falha ao analisar o contexto da empresa: " ++ e

/-- Node 1, `context_analysis_node` (lines 91-126): one search call, one
completion call, both inside the stage's `try`; any raise is converted to
the placeholder update. -/
def context_analysis_node (search_tool : SearchClient) (llm : CompletionClient)
    (state : MeetingState) : StateUpdate :=
  match search_tool (contextQuery state) with
  | .error e => { context_analysis := some (contextFailMsg e) }
  | .ok search_results =>
    match llm (contextPrompt state search_results) with
    | .error e => { context_analysis := some (contextFailMsg e) }
    | .ok content => { context_analysis := some content }

/-- Stage-2 search query (line 135). -/
def industryQuery (s : MeetingState) : String :=
  "Análise de mercado e tendências para o setor da empresa \x27" ++ s.company_name ++ "\x27"

/-- Stage-2 prompt up to the interpolated (truncated) search results
(lines 138-145). -/
def industryPromptPre (s : MeetingState) : String :=
  "\n        Como analista de mercado, sua tarefa é analisar a indústria da empresa \x27" ++
  s.company_name ++
  "\x27.\n\n        **CONTEXTO DA REUNIÃO:**\n        - Objetivo: " ++
  s.meeting_objective ++
  "\n\n        **DADOS DE MERCADO (PESQUISA WEB):**\n        "

/-- Stage-2 prompt after the interpolated search results (lines 145-153). -/
def industryPromptPost : String :=
  "\n\n        **INSTRUÇÃO:**\n        Forneça uma análise da indústria em markdown, focando em:\n        1.  **Panorama do Setor:** Tamanho, crescimento e características.\n        2.  **Tendências Atuais:** Tecnológicas, de consumo ou regulatórias.\n        3.  **Cenário Competitivo:** Principais concorrentes e seus diferenciais.\n        4.  **Oportunidades e Ameaças (SWOT):** Fatores que podem impactar a reunião.\n        "

/-- Stage-2 prompt f-string (lines 138-153). -/
def industryPrompt (s : MeetingState) (industry_results : String) : String :=
  industryPromptPre s ++ pyTake industry_results 3000 ++ industryPromptPost

/-- Stage-2 failure placeholder f-string (line 161). -/
def industryFailMsg (e : String) : String :=
  "⚠️ Falha ao analisar a indústria: " ++ e

/-- Node 2, `industry_analysis_node` (lines 128-161). -/
def industry_analysis_node (search_tool : SearchClient) (llm : CompletionClient)
    (state : MeetingState) : StateUpdate :=
  match search_tool (industryQuery state) with
  | .error e => { industry_analysis := some (industryFailMsg e) }
  | .ok industry_results =>
    match llm (industryPrompt state industry_results) with
    | .error e => { industry_analysis := some (industryFailMsg e) }
    | .ok content => { industry_analysis := some content }

/-- Stage-3 prompt up to `state.get('context_analysis', 'Não disponível')`
(lines 170-174). -/
def strategyPromptPre : String :=
  "\n        Você é um consultor estratégico. Sua missão é criar uma estratégia para a reunião com base nas análises.\n\n        **ANÁLISE DE CONTEXTO:**\n        "

/-- Stage-3 prompt between the two `state.get` interpolations (lines
174-177). -/
def strategyPromptMid : String :=
  "\n\n        **ANÁLISE DE INDÚSTRIA:**\n        "

/-- Stage-3 prompt after `state.get('industry_analysis', ...)` (lines
177-189). -/
def strategyPromptTail (s : MeetingState) : String :=
  "\n\n        **PARÂMETROS DA REUNIÃO:**\n        - Duração: " ++
  toString s.duration ++
  " minutos\n        - Objetivo: " ++
  s.meeting_objective ++
  "\n        - Participantes: " ++
  s.attendees ++
  "\n\n        **INSTRUÇÃO:**\n        Desenvolva uma estratégia de reunião em markdown, contendo:\n        1.  **Agenda Detalhada:** Tópicos com tempo alocado (total: " ++
  toString s.duration ++
  " min).\n        2.  **Estratégia de Abordagem:** Mensagens-chave a serem comunicadas e perguntas a serem feitas.\n        3.  **Plano de Ação e Próximos Passos:** O que fazer após a reunião.\n        "

/-- Stage-3 prompt f-string (lines 170-189); `state.get(key, default)`
is `Option.getD`: the default is used only when the key is absent. -/
def strategyPrompt (s : MeetingState) : String :=
  strategyPromptPre ++ s.context_analysis.getD "Não disponível" ++
  strategyPromptMid ++ s.industry_analysis.getD "Não disponível" ++
  strategyPromptTail s

/-- Stage-3 failure placeholder f-string (line 197). -/
def strategyFailMsg (e : String) : String :=
  "⚠️ Falha ao desenvolver a estratégia: " ++ e

/-- Node 3, `strategy_development_node` (lines 163-197): no search call,
one completion call. -/
def strategy_development_node (llm : CompletionClient)
    (state : MeetingState) : StateUpdate :=
  match llm (strategyPrompt state) with
  | .error e => { strategy := some (strategyFailMsg e) }
  | .ok content => { strategy := some content }

/-- Stage-4 section header literal for the meeting summary (line 219). -/
def briefHeader1 : String := "## 🎯 1. RESUMO DA REUNIÃO"

/-- Stage-4 section header literal for the company context (line 224). -/
def briefHeader2 : String := "## 🏢 2. CONTEXTO DA EMPRESA"

/-- Stage-4 section header literal for the market analysis (line 227). -/
def briefHeader3 : String := "## 📊 3. ANÁLISE DE MERCADO"

/-- Stage-4 section header literal for the strategy/agenda (line 230). -/
def briefHeader4 : String := "## 🚀 4. ESTRATÉGIA E AGENDA"

/-- Stage-4 prompt f-string, part before `briefHeader1` (lines 206-218). -/
def briefSegA (s : MeetingState) : String :=
  "\n        Como assistente executivo, compile um briefing final para a reunião com \x27" ++
  s.company_name ++
  "\x27.\n\n        **DADOS COMPILADOS:**\n        - Contexto: " ++
  s.context_analysis.getD "Não disponível" ++
  "\n        - Indústria: " ++
  s.industry_analysis.getD "Não disponível" ++
  "\n        - Estratégia: " ++
  s.strategy.getD "Não disponível" ++
  "\n\n        **INSTRUÇÃO:**\n        Crie um briefing executivo completo e bem estruturado em markdown. O documento deve ser claro, conciso e visualmente organizado. Use emojis para destacar seções.\n\n        # 📋 BRIEFING EXECUTIVO: Reunião com " ++
  s.company_name ++
  "\n\n        "

/-- Stage-4 prompt f-string, between `briefHeader1` and `briefHeader2`
(lines 219-224). -/
def briefSegB (s : MeetingState) : String :=
  "\n        - **Objetivo:** " ++
  s.meeting_objective ++
  "\n        - **Participantes:** " ++
  s.attendees ++
  "\n        - **Duração:** " ++
  toString s.duration ++
  " minutos\n\n        "

/-- Stage-4 prompt f-string, between `briefHeader2` and `briefHeader3`
(lines 224-227). -/
def briefSegC (s : MeetingState) : String :=
  "\n        " ++ s.context_analysis.getD "Análise não disponível." ++ "\n\n        "

/-- Stage-4 prompt f-string, between `briefHeader3` and `briefHeader4`
(lines 227-230). -/
def briefSegD (s : MeetingState) : String :=
  "\n        " ++ s.industry_analysis.getD "Análise não disponível." ++ "\n\n        "

/-- Stage-4 prompt f-string, after `briefHeader4` (lines 230-232). -/
def briefSegE (s : MeetingState) : String :=
  "\n        " ++ s.strategy.getD "Estratégia não disponível." ++ "\n        "

/-- Stage-4 prompt f-string (lines 206-232), with its six
`state.get(key, default)` interpolations embedded as `Option.getD`; the
fixed section skeleton is spelled out through the four header literals. -/
def briefPrompt (s : MeetingState) : String :=
  briefSegA s ++ (briefHeader1 ++ (briefSegB s ++ (briefHeader2 ++
    (briefSegC s ++ (briefHeader3 ++ (briefSegD s ++ (briefHeader4 ++ briefSegE s)))))))

/-- Stage-4 failure placeholder f-string (line 240). -/
def briefFailMsg (e : String) : String :=
  "⚠️ Falha ao criar o briefing: " ++ e

/-- Node 4, `executive_brief_node` (lines 199-240). -/
def executive_brief_node (llm : CompletionClient)
    (state : MeetingState) : StateUpdate :=
  match llm (briefPrompt state) with
  | .error e => { executive_brief := some (briefFailMsg e) }
  | .ok content => { executive_brief := some content }

/-- The node names of the graph built by `build_workflow` (lines 244-266). -/
inductive NodeName
  | context
  | industry
  | strategy
  | brief
deriving DecidableEq

/-- `workflow.set_entry_point("context")` (line 259). -/
def entryPoint : NodeName := .context

/-- The `add_edge` calls (lines 260-263); `none` is the `END` marker. -/
def nextNode : NodeName → Option NodeName
  | .context => some .industry
  | .industry => some .strategy
  | .strategy => some .brief
  | .brief => none

/-- The node function registered under each graph node (lines 253-256). -/
def runNode (search_tool : SearchClient) (llm : CompletionClient) :
    NodeName → MeetingState → StateUpdate
  | .context => context_analysis_node search_tool llm
  | .industry => industry_analysis_node search_tool llm
  | .strategy => strategy_development_node llm
  | .brief => executive_brief_node llm

/-- Distance (in edges) from a node to `END`; used for termination of the
graph walk. -/
def rank : NodeName → Nat
  | .context => 3
  | .industry => 2
  | .strategy => 1
  | .brief => 0

/-- The compiled graph's execution from node `n`: run the node, merge its
update, follow the unique outgoing edge until `END`.  Also records the
sequence of nodes executed. -/
def runFrom (search_tool : SearchClient) (llm : CompletionClient)
    (n : NodeName) (s : MeetingState) : MeetingState × List NodeName :=
  let s₁ := applyUpdate s (runNode search_tool llm n s)
  match h : nextNode n with
  | none => (s₁, [n])
  | some m =>
    let r := runFrom search_tool llm m s₁
    (r.1, n :: r.2)
termination_by rank n
decreasing_by
  cases n <;> simp_all [nextNode, rank] <;> subst h <;> decide

/-- `app.invoke(initial_state)` (line 374): walk the graph from the entry
point; returns the final state together with the executed node sequence. -/
def invoke (search_tool : SearchClient) (llm : CompletionClient)
    (s : MeetingState) : MeetingState × List NodeName :=
  runFrom search_tool llm entryPoint s

/-- Update returned by stage 1 on the initial state. -/
def update1 (search_tool : SearchClient) (llm : CompletionClient)
    (s : MeetingState) : StateUpdate :=
  context_analysis_node search_tool llm s

/-- State after stage 1. -/
def state1 (search_tool : SearchClient) (llm : CompletionClient)
    (s : MeetingState) : MeetingState :=
  applyUpdate s (update1 search_tool llm s)

/-- Update returned by stage 2 (run on the state after stage 1). -/
def update2 (search_tool : SearchClient) (llm : CompletionClient)
    (s : MeetingState) : StateUpdate :=
  industry_analysis_node search_tool llm (state1 search_tool llm s)

/-- State after stage 2. -/
def state2 (search_tool : SearchClient) (llm : CompletionClient)
    (s : MeetingState) : MeetingState :=
  applyUpdate (state1 search_tool llm s) (update2 search_tool llm s)

/-- Update returned by stage 3 (run on the state after stage 2). -/
def update3 (search_tool : SearchClient) (llm : CompletionClient)
    (s : MeetingState) : StateUpdate :=
  strategy_development_node llm (state2 search_tool llm s)

/-- State after stage 3. -/
def state3 (search_tool : SearchClient) (llm : CompletionClient)
    (s : MeetingState) : MeetingState :=
  applyUpdate (state2 search_tool llm s) (update3 search_tool llm s)

/-- Update returned by stage 4 (run on the state after stage 3). -/
def update4 (search_tool : SearchClient) (llm : CompletionClient)
    (s : MeetingState) : StateUpdate :=
  executive_brief_node llm (state3 search_tool llm s)

/-- Final state after stage 4. -/
def state4 (search_tool : SearchClient) (llm : CompletionClient)
    (s : MeetingState) : MeetingState :=
  applyUpdate (state3 search_tool llm s) (update4 search_tool llm s)

/-- The initial state dict built by the orchestrator (lines 352-363);
`focus_areas or "Nenhuma área específica definida"` uses Python
truthiness, and all four output keys are preset to the empty string. -/
def initial_state (company objective attendees : String) (duration : Nat)
    (focus timestamp : String) : MeetingState where
  company_name := company
  meeting_objective := objective
  attendees := attendees
  duration := duration
  focus_areas := if focus = "" then "Nenhuma área específica definida" else focus
  context_analysis := some ""
  industry_analysis := some ""
  strategy := some ""
  executive_brief := some ""
  timestamp := timestamp

/-- The end-to-end scenario input state: company "Acme", objective
"Discuss partnership", attendees "John - CEO", duration 60 minutes, blank
focus areas (a fixed timestamp stands in for `datetime.now()`). -/
def acmeState : MeetingState :=
  initial_state "Acme" "Discuss partnership" "John - CEO" 60 "" "2026-02-03T10:00:00"

/-- Deterministic search stand-in returning fixed canned text. -/
def stubSearch : SearchClient := fun _ => .ok "STUB SEARCH RESULTS"

/-- Deterministic completion stand-in returning fixed canned text. -/
def stubCompletion : CompletionClient := fun _ => .ok "CANNED COMPLETION TEXT"

/-- Completion stand-in that succeeds with the empty string on every call. -/
def emptyCompletion : CompletionClient := fun _ => .ok ""

/-- Search stand-in that raises on every call. -/
def failingSearch : SearchClient := fun _ => .error "boom"

end MeetApp

namespace MeetApp

/-! Helper lemmas shared by several claim theorems. -/

theorem strContains_self (s : String) : strContains s s :=
  List.infix_refl _

theorem strContains_mono_left {s pat : String} (t : String)
    (h : strContains s pat) : strContains (s ++ t) pat := by
  unfold strContains at *
  rw [String.data_append]
  exact h.trans (List.prefix_append _ _).isInfix

theorem strContains_mono_right {s pat : String} (t : String)
    (h : strContains s pat) : strContains (t ++ s) pat := by
  unfold strContains at *
  rw [String.data_append]
  exact h.trans (List.suffix_append _ _).isInfix

theorem strStartsWith_mono {pre m : String} (e : String)
    (h : strStartsWith pre m) : strStartsWith (pre ++ e) m := by
  unfold strStartsWith at *
  rw [String.data_append]
  exact h.trans (List.prefix_append _ _)

theorem str_append_ne_empty {pre : String} (e : String) (h : pre ≠ "") :
    pre ++ e ≠ "" := by
  intro hc
  apply h
  have hd := congrArg String.data hc
  rw [String.data_append] at hd
  exact String.ext (List.append_eq_nil.mp hd).1

theorem invoke_run_eq (search_tool : SearchClient) (llm : CompletionClient)
    (s : MeetingState) :
    invoke search_tool llm s =
      (state4 search_tool llm s,
        [NodeName.context, NodeName.industry, NodeName.strategy, NodeName.brief]) := by
  rw [invoke, entryPoint]
  rw [runFrom.eq_def]
  simp only [nextNode, runNode]
  rw [runFrom.eq_def]
  simp only [nextNode, runNode]
  rw [runFrom.eq_def]
  simp only [nextNode, runNode]
  rw [runFrom.eq_def]
  simp only [nextNode, runNode]
  simp [state4, state3, state2, state1, update4, update3, update2, update1, runNode]

theorem context_node_search_err (search_tool : SearchClient) (llm : CompletionClient)
    (s : MeetingState) (e : String) (h : search_tool (contextQuery s) = .error e) :
    context_analysis_node search_tool llm s = { context_analysis := some (contextFailMsg e) } := by
  unfold context_analysis_node
  simp only [h]

theorem context_node_llm_err (search_tool : SearchClient) (llm : CompletionClient)
    (s : MeetingState) (r e : String) (h1 : search_tool (contextQuery s) = .ok r)
    (h2 : llm (contextPrompt s r) = .error e) :
    context_analysis_node search_tool llm s = { context_analysis := some (contextFailMsg e) } := by
  unfold context_analysis_node
  simp only [h1, h2]

theorem context_node_ok (search_tool : SearchClient) (llm : CompletionClient)
    (s : MeetingState) (r v : String) (h1 : search_tool (contextQuery s) = .ok r)
    (h2 : llm (contextPrompt s r) = .ok v) :
    context_analysis_node search_tool llm s = { context_analysis := some v } := by
  unfold context_analysis_node
  simp only [h1, h2]

theorem industry_node_search_err (search_tool : SearchClient) (llm : CompletionClient)
    (s : MeetingState) (e : String) (h : search_tool (industryQuery s) = .error e) :
    industry_analysis_node search_tool llm s = { industry_analysis := some (industryFailMsg e) } := by
  unfold industry_analysis_node
  simp only [h]

theorem industry_node_llm_err (search_tool : SearchClient) (llm : CompletionClient)
    (s : MeetingState) (r e : String) (h1 : search_tool (industryQuery s) = .ok r)
    (h2 : llm (industryPrompt s r) = .error e) :
    industry_analysis_node search_tool llm s = { industry_analysis := some (industryFailMsg e) } := by
  unfold industry_analysis_node
  simp only [h1, h2]

theorem industry_node_ok (search_tool : SearchClient) (llm : CompletionClient)
    (s : MeetingState) (r v : String) (h1 : search_tool (industryQuery s) = .ok r)
    (h2 : llm (industryPrompt s r) = .ok v) :
    industry_analysis_node search_tool llm s = { industry_analysis := some v } := by
  unfold industry_analysis_node
  simp only [h1, h2]

theorem strategy_node_err (llm : CompletionClient) (s : MeetingState) (e : String)
    (h : llm (strategyPrompt s) = .error e) :
    strategy_development_node llm s = { strategy := some (strategyFailMsg e) } := by
  unfold strategy_development_node
  simp only [h]

theorem strategy_node_ok (llm : CompletionClient) (s : MeetingState) (v : String)
    (h : llm (strategyPrompt s) = .ok v) :
    strategy_development_node llm s = { strategy := some v } := by
  unfold strategy_development_node
  simp only [h]

theorem brief_node_err (llm : CompletionClient) (s : MeetingState) (e : String)
    (h : llm (briefPrompt s) = .error e) :
    executive_brief_node llm s = { executive_brief := some (briefFailMsg e) } := by
  unfold executive_brief_node
  simp only [h]

theorem brief_node_ok (llm : CompletionClient) (s : MeetingState) (v : String)
    (h : llm (briefPrompt s) = .ok v) :
    executive_brief_node llm s = { executive_brief := some v } := by
  unfold executive_brief_node
  simp only [h]

theorem context_node_shape (search_tool : SearchClient) (llm : CompletionClient)
    (s : MeetingState) :
    ∃ v, context_analysis_node search_tool llm s = { context_analysis := some v } := by
  cases h1 : search_tool (contextQuery s) with
  | error e => exact ⟨_, context_node_search_err search_tool llm s e h1⟩
  | ok r =>
    cases h2 : llm (contextPrompt s r) with
    | error e => exact ⟨_, context_node_llm_err search_tool llm s r e h1 h2⟩
    | ok v => exact ⟨_, context_node_ok search_tool llm s r v h1 h2⟩

theorem industry_node_shape (search_tool : SearchClient) (llm : CompletionClient)
    (s : MeetingState) :
    ∃ v, industry_analysis_node search_tool llm s = { industry_analysis := some v } := by
  cases h1 : search_tool (industryQuery s) with
  | error e => exact ⟨_, industry_node_search_err search_tool llm s e h1⟩
  | ok r =>
    cases h2 : llm (industryPrompt s r) with
    | error e => exact ⟨_, industry_node_llm_err search_tool llm s r e h1 h2⟩
    | ok v => exact ⟨_, industry_node_ok search_tool llm s r v h1 h2⟩

theorem strategy_node_shape (llm : CompletionClient) (s : MeetingState) :
    ∃ v, strategy_development_node llm s = { strategy := some v } := by
  cases h : llm (strategyPrompt s) with
  | error e => exact ⟨_, strategy_node_err llm s e h⟩
  | ok v => exact ⟨_, strategy_node_ok llm s v h⟩

theorem brief_node_shape (llm : CompletionClient) (s : MeetingState) :
    ∃ v, executive_brief_node llm s = { executive_brief := some v } := by
  cases h : llm (briefPrompt s) with
  | error e => exact ⟨_, brief_node_err llm s e h⟩
  | ok v => exact ⟨_, brief_node_ok llm s v h⟩

theorem state1_shape (search_tool : SearchClient) (llm : CompletionClient)
    (s : MeetingState) :
    ∃ c, state1 search_tool llm s = { s with context_analysis := some c } := by
  obtain ⟨c, hc⟩ := context_node_shape search_tool llm s
  refine ⟨c, ?_⟩
  simp only [state1, update1]
  rw [hc]
  rfl

theorem state2_shape (search_tool : SearchClient) (llm : CompletionClient)
    (s : MeetingState) :
    ∃ c i, state2 search_tool llm s =
      { s with context_analysis := some c, industry_analysis := some i } := by
  obtain ⟨c, hc⟩ := state1_shape search_tool llm s
  obtain ⟨i, hi⟩ := industry_node_shape search_tool llm (state1 search_tool llm s)
  refine ⟨c, i, ?_⟩
  simp only [state2, update2]
  rw [hi, hc]
  rfl

theorem state3_shape (search_tool : SearchClient) (llm : CompletionClient)
    (s : MeetingState) :
    ∃ c i t, state3 search_tool llm s =
      { s with context_analysis := some c, industry_analysis := some i,
               strategy := some t } := by
  obtain ⟨c, i, h2⟩ := state2_shape search_tool llm s
  obtain ⟨t, ht⟩ := strategy_node_shape llm (state2 search_tool llm s)
  refine ⟨c, i, t, ?_⟩
  simp only [state3, update3]
  rw [ht, h2]
  rfl

theorem state4_shape (search_tool : SearchClient) (llm : CompletionClient)
    (s : MeetingState) :
    ∃ c i t b, state4 search_tool llm s =
      { s with context_analysis := some c, industry_analysis := some i,
               strategy := some t, executive_brief := some b } := by
  obtain ⟨c, i, t, h3⟩ := state3_shape search_tool llm s
  obtain ⟨b, hb⟩ := brief_node_shape llm (state3 search_tool llm s)
  refine ⟨c, i, t, b, ?_⟩
  simp only [state4, update4]
  rw [hb, h3]
  rfl

theorem state4_context_persist (search_tool : SearchClient) (llm : CompletionClient)
    (s : MeetingState) :
    (state4 search_tool llm s).context_analysis = (state1 search_tool llm s).context_analysis := by
  obtain ⟨i, hi⟩ := industry_node_shape search_tool llm (state1 search_tool llm s)
  obtain ⟨t, ht⟩ := strategy_node_shape llm (state2 search_tool llm s)
  obtain ⟨b, hb⟩ := brief_node_shape llm (state3 search_tool llm s)
  simp only [state4, update4]
  rw [hb]
  simp only [state3, update3]
  rw [ht]
  simp only [state2, update2]
  rw [hi]
  rfl

theorem state4_industry_persist (search_tool : SearchClient) (llm : CompletionClient)
    (s : MeetingState) :
    (state4 search_tool llm s).industry_analysis = (state2 search_tool llm s).industry_analysis := by
  obtain ⟨t, ht⟩ := strategy_node_shape llm (state2 search_tool llm s)
  obtain ⟨b, hb⟩ := brief_node_shape llm (state3 search_tool llm s)
  simp only [state4, update4]
  rw [hb]
  simp only [state3, update3]
  rw [ht]
  rfl

theorem state4_strategy_persist (search_tool : SearchClient) (llm : CompletionClient)
    (s : MeetingState) :
    (state4 search_tool llm s).strategy = (state3 search_tool llm s).strategy := by
  obtain ⟨b, hb⟩ := brief_node_shape llm (state3 search_tool llm s)
  simp only [state4, update4]
  rw [hb]
  rfl

theorem industryQuery_state1 (search_tool : SearchClient) (llm : CompletionClient)
    (s : MeetingState) :
    industryQuery (state1 search_tool llm s) = industryQuery s := by
  obtain ⟨c, hc⟩ := state1_shape search_tool llm s
  rw [hc]
  rfl

theorem industryPrompt_state1 (search_tool : SearchClient) (llm : CompletionClient)
    (s : MeetingState) (r : String) :
    industryPrompt (state1 search_tool llm s) r = industryPrompt s r := by
  obtain ⟨c, hc⟩ := state1_shape search_tool llm s
  rw [hc]
  rfl

theorem state2_context_persist (search_tool : SearchClient) (llm : CompletionClient)
    (s : MeetingState) :
    (state2 search_tool llm s).context_analysis = (state1 search_tool llm s).context_analysis := by
  obtain ⟨i, hi⟩ := industry_node_shape search_tool llm (state1 search_tool llm s)
  simp only [state2, update2]
  rw [hi]
  rfl

theorem state3_context_persist (search_tool : SearchClient) (llm : CompletionClient)
    (s : MeetingState) :
    (state3 search_tool llm s).context_analysis = (state1 search_tool llm s).context_analysis := by
  obtain ⟨i, hi⟩ := industry_node_shape search_tool llm (state1 search_tool llm s)
  obtain ⟨t, ht⟩ := strategy_node_shape llm (state2 search_tool llm s)
  simp only [state3, update3]
  rw [ht]
  simp only [state2, update2]
  rw [hi]
  rfl

theorem state3_industry_persist (search_tool : SearchClient) (llm : CompletionClient)
    (s : MeetingState) :
    (state3 search_tool llm s).industry_analysis = (state2 search_tool llm s).industry_analysis := by
  obtain ⟨t, ht⟩ := strategy_node_shape llm (state2 search_tool llm s)
  simp only [state3, update3]
  rw [ht]
  rfl

theorem str_append_assoc4 (x1 x2 x3 x4 x5 : String) :
    x1 ++ x2 ++ x3 ++ x4 ++ x5 = x1 ++ (x2 ++ (x3 ++ (x4 ++ x5))) := by
  apply String.ext
  simp [String.data_append, List.append_assoc]

theorem briefPrompt_contains_company (s : MeetingState) :
    strContains (briefPrompt s) s.company_name := by
  have hA : strContains (briefSegA s) s.company_name := by
    unfold briefSegA
    exact strContains_mono_left _ (strContains_mono_right _ (strContains_self _))
  unfold briefPrompt
  exact strContains_mono_left _ hA

theorem briefPrompt_contains_duration (s : MeetingState) :
    strContains (briefPrompt s) (toString s.duration) := by
  have hB : strContains (briefSegB s) (toString s.duration) := by
    unfold briefSegB
    exact strContains_mono_left _ (strContains_mono_right _ (strContains_self _))
  unfold briefPrompt
  exact strContains_mono_right _ (strContains_mono_right _ (strContains_mono_left _ hB))

theorem briefPrompt_headers (s : MeetingState) :
    ∃ a b c d e, briefPrompt s =
      a ++ (briefHeader1 ++ (b ++ (briefHeader2 ++ (c ++ (briefHeader3 ++
        (d ++ (briefHeader4 ++ e))))))) :=
  ⟨briefSegA s, briefSegB s, briefSegC s, briefSegD s, briefSegE s, rfl⟩

/-- C3: the input-validation function returns an error string exactly when
one of the three inputs is empty or whitespace-only or the raw company
name has fewer than 2 characters; moreover the four example calls of the
spec produce exactly the errors (or absence of error) the spec lists. -/
theorem C3_validate_inputs_spec :
    (∀ c o a : String, validate_inputs c o a ≠ none ↔
      (pyStrip c = "" ∨ pyStrip o = "" ∨ pyStrip a = "" ∨ c.length < 2)) ∧
    validate_inputs " " "x" "y" = some "Nome da empresa é obrigatório" ∧
    validate_inputs "Acme" "" "y" = some "Objetivo da reunião é obrigatório" ∧
    validate_inputs "A" "x" "y" = some "Nome da empresa deve ter pelo menos 2 caracteres" ∧
    validate_inputs "Acme" "Partner up" "John - CEO" = none := by
  refine ⟨?_, by decide, by decide, by decide, by decide⟩
  intro c o a
  unfold validate_inputs
  split_ifs with h1 h2 h3 h4 <;> simp_all

/-- Witness for C3 at a concrete input: a blank company name is rejected. -/
theorem C3_validate_inputs_spec_witness : validate_inputs " " "x" "y" ≠ none :=
  (C3_validate_inputs_spec.1 " " "x" "y").mpr (Or.inl (by decide))

/-- C10: the emptiness checks run on the stripped strings while the
2-character minimum applies to the raw company name, so a company name
whose raw length is at least 2 but whose trimmed form is shorter (and
nonempty) passes validation. -/
theorem C10_raw_length_quirk (c o a : String) (hlen : 2 ≤ c.length)
    (htrim : (pyStrip c).length < 2) (hne : pyStrip c ≠ "")
    (ho : pyStrip o ≠ "") (ha : pyStrip a ≠ "") :
    validate_inputs c o a = none := by
  unfold validate_inputs
  rw [if_neg hne, if_neg ho, if_neg ha, if_neg (by omega : ¬ c.length < 2)]

/-- Witness for C10 at the spec example: the company name " A " (raw
length 3, trimmed length 1) passes validation. -/
theorem C10_raw_length_quirk_witness : validate_inputs " A " "x" "y" = none :=
  C10_raw_length_quirk " A " "x" "y" (by decide) (by decide) (by decide)
    (by decide) (by decide)

/-- C4: both search-using stages embed exactly the first 3000 characters
of the raw search result into their prompt: the prompt decomposes around
`pyTake r 3000`, depends only on the first 3000 characters of `r`, and
embeds `r` whole when `r` has at most 3000 characters. -/
theorem C4_search_truncation (s : MeetingState) (r : String) :
    contextPrompt s r = contextPromptPre s ++ pyTake r 3000 ++ contextPromptPost ∧
    contextPrompt s r = contextPrompt s (pyTake r 3000) ∧
    strContains (contextPrompt s r) (pyTake r 3000) ∧
    (r.length ≤ 3000 → contextPrompt s r = contextPromptPre s ++ r ++ contextPromptPost) ∧
    industryPrompt s r = industryPromptPre s ++ pyTake r 3000 ++ industryPromptPost ∧
    industryPrompt s r = industryPrompt s (pyTake r 3000) ∧
    strContains (industryPrompt s r) (pyTake r 3000) ∧
    (r.length ≤ 3000 → industryPrompt s r = industryPromptPre s ++ r ++ industryPromptPost) ∧
    (pyTake r 3000).length ≤ 3000 := by
  have htake : pyTake (pyTake r 3000) 3000 = pyTake r 3000 := by
    apply String.ext
    show (r.data.take 3000).take 3000 = r.data.take 3000
    rw [List.take_take, min_self]
  have hshort : r.length ≤ 3000 → pyTake r 3000 = r := fun h =>
    String.ext (List.take_of_length_le h)
  refine ⟨rfl, ?_, ?_, ?_, rfl, ?_, ?_, ?_, ?_⟩
  · simp only [contextPrompt, htake]
  · unfold strContains contextPrompt
    rw [String.data_append, String.data_append]
    exact List.infix_append _ _ _
  · intro h
    show contextPromptPre s ++ pyTake r 3000 ++ contextPromptPost = _
    rw [hshort h]
  · simp only [industryPrompt, htake]
  · unfold strContains industryPrompt
    rw [String.data_append, String.data_append]
    exact List.infix_append _ _ _
  · intro h
    show industryPromptPre s ++ pyTake r 3000 ++ industryPromptPost = _
    rw [hshort h]
  · show (r.data.take 3000).length ≤ 3000
    rw [List.length_take]
    exact min_le_left _ _

/-- Witness for C4 at a concrete short result: a 3-character search
result is embedded whole. -/
theorem C4_search_truncation_witness :
    contextPrompt acmeState "abc" = contextPromptPre acmeState ++ "abc" ++ contextPromptPost :=
  (C4_search_truncation acmeState "abc").2.2.2.1 (by decide)

/-- C9: the industry-analysis stage does not read stage 1 output: states
differing only in `context_analysis` give the same search query, the same
prompt for every search result, and the same node update. -/
theorem C9_industry_independent_of_context (search_tool : SearchClient)
    (llm : CompletionClient) (s : MeetingState) (v : Option String) :
    industryQuery { s with context_analysis := v } = industryQuery s ∧
    (∀ r, industryPrompt { s with context_analysis := v } r = industryPrompt s r) ∧
    industry_analysis_node search_tool llm { s with context_analysis := v } =
      industry_analysis_node search_tool llm s :=
  ⟨rfl, fun _ => rfl, rfl⟩

/-- C8: with any fixed (functional, hence deterministic) search and
completion stand-ins, two runs on equal input states give equal results:
the executed node sequence, the final state, and each of the four output
fields coincide. -/
theorem C8_pipeline_deterministic (search_tool : SearchClient)
    (llm : CompletionClient) (s t : MeetingState) (h : s = t) :
    invoke search_tool llm s = invoke search_tool llm t ∧
    (state4 search_tool llm s).context_analysis = (state4 search_tool llm t).context_analysis ∧
    (state4 search_tool llm s).industry_analysis = (state4 search_tool llm t).industry_analysis ∧
    (state4 search_tool llm s).strategy = (state4 search_tool llm t).strategy ∧
    (state4 search_tool llm s).executive_brief = (state4 search_tool llm t).executive_brief := by
  subst h
  exact ⟨rfl, rfl, rfl, rfl, rfl⟩

/-- Witness for C8 at the concrete stub clients and the end-to-end input
state. -/
theorem C8_pipeline_deterministic_witness :
    invoke stubSearch stubCompletion acmeState = invoke stubSearch stubCompletion acmeState :=
  (C8_pipeline_deterministic stubSearch stubCompletion acmeState acmeState rfl).1

/-- C7: each stage's partial update carries only that stage's own output
field (all other nine keys absent, the own key present); consequently the
six non-output fields survive the whole run unchanged, and each output
field, once written by its stage, is never touched by a later stage. -/
theorem C7_state_frame (search_tool : SearchClient) (llm : CompletionClient)
    (s : MeetingState) :
    ((update1 search_tool llm s).company_name = none ∧
     (update1 search_tool llm s).meeting_objective = none ∧
     (update1 search_tool llm s).attendees = none ∧
     (update1 search_tool llm s).duration = none ∧
     (update1 search_tool llm s).focus_areas = none ∧
     (update1 search_tool llm s).industry_analysis = none ∧
     (update1 search_tool llm s).strategy = none ∧
     (update1 search_tool llm s).executive_brief = none ∧
     (update1 search_tool llm s).timestamp = none ∧
     (update1 search_tool llm s).context_analysis.isSome = true) ∧
    ((update2 search_tool llm s).company_name = none ∧
     (update2 search_tool llm s).meeting_objective = none ∧
     (update2 search_tool llm s).attendees = none ∧
     (update2 search_tool llm s).duration = none ∧
     (update2 search_tool llm s).focus_areas = none ∧
     (update2 search_tool llm s).context_analysis = none ∧
     (update2 search_tool llm s).strategy = none ∧
     (update2 search_tool llm s).executive_brief = none ∧
     (update2 search_tool llm s).timestamp = none ∧
     (update2 search_tool llm s).industry_analysis.isSome = true) ∧
    ((update3 search_tool llm s).company_name = none ∧
     (update3 search_tool llm s).meeting_objective = none ∧
     (update3 search_tool llm s).attendees = none ∧
     (update3 search_tool llm s).duration = none ∧
     (update3 search_tool llm s).focus_areas = none ∧
     (update3 search_tool llm s).context_analysis = none ∧
     (update3 search_tool llm s).industry_analysis = none ∧
     (update3 search_tool llm s).executive_brief = none ∧
     (update3 search_tool llm s).timestamp = none ∧
     (update3 search_tool llm s).strategy.isSome = true) ∧
    ((update4 search_tool llm s).company_name = none ∧
     (update4 search_tool llm s).meeting_objective = none ∧
     (update4 search_tool llm s).attendees = none ∧
     (update4 search_tool llm s).duration = none ∧
     (update4 search_tool llm s).focus_areas = none ∧
     (update4 search_tool llm s).context_analysis = none ∧
     (update4 search_tool llm s).industry_analysis = none ∧
     (update4 search_tool llm s).strategy = none ∧
     (update4 search_tool llm s).timestamp = none ∧
     (update4 search_tool llm s).executive_brief.isSome = true) ∧
    ((state4 search_tool llm s).company_name = s.company_name ∧
     (state4 search_tool llm s).meeting_objective = s.meeting_objective ∧
     (state4 search_tool llm s).attendees = s.attendees ∧
     (state4 search_tool llm s).duration = s.duration ∧
     (state4 search_tool llm s).focus_areas = s.focus_areas ∧
     (state4 search_tool llm s).timestamp = s.timestamp) ∧
    ((state2 search_tool llm s).context_analysis = (state1 search_tool llm s).context_analysis ∧
     (state3 search_tool llm s).context_analysis = (state1 search_tool llm s).context_analysis ∧
     (state4 search_tool llm s).context_analysis = (state1 search_tool llm s).context_analysis ∧
     (state3 search_tool llm s).industry_analysis = (state2 search_tool llm s).industry_analysis ∧
     (state4 search_tool llm s).industry_analysis = (state2 search_tool llm s).industry_analysis ∧
     (state4 search_tool llm s).strategy = (state3 search_tool llm s).strategy) := by
  obtain ⟨c, hc⟩ := context_node_shape search_tool llm s
  obtain ⟨i, hi⟩ := industry_node_shape search_tool llm (state1 search_tool llm s)
  obtain ⟨t, ht⟩ := strategy_node_shape llm (state2 search_tool llm s)
  obtain ⟨b, hb⟩ := brief_node_shape llm (state3 search_tool llm s)
  obtain ⟨c4, i4, t4, b4, h4⟩ := state4_shape search_tool llm s
  refine ⟨?_, ?_, ?_, ?_, ?_, ?_⟩
  · rw [update1, hc]
    exact ⟨rfl, rfl, rfl, rfl, rfl, rfl, rfl, rfl, rfl, rfl⟩
  · rw [update2, hi]
    exact ⟨rfl, rfl, rfl, rfl, rfl, rfl, rfl, rfl, rfl, rfl⟩
  · rw [update3, ht]
    exact ⟨rfl, rfl, rfl, rfl, rfl, rfl, rfl, rfl, rfl, rfl⟩
  · rw [update4, hb]
    exact ⟨rfl, rfl, rfl, rfl, rfl, rfl, rfl, rfl, rfl, rfl⟩
  · rw [h4]
    exact ⟨rfl, rfl, rfl, rfl, rfl, rfl⟩
  · exact ⟨state2_context_persist search_tool llm s, state3_context_persist search_tool llm s,
      state4_context_persist search_tool llm s, state3_industry_persist search_tool llm s,
      state4_industry_persist search_tool llm s, state4_strategy_persist search_tool llm s⟩

/-- C5 counterexample: the orchestrator's own initial state has both
analysis fields present with the empty-string value, yet the stage-3
prompt does not contain the "Não disponível" placeholder anywhere — the
`dict.get` default never fires on a present-but-empty field, refuting the
claim that an empty field is replaced by the placeholder. -/
theorem C5_placeholder_counterexample :
    acmeState.context_analysis = some "" ∧
    acmeState.industry_analysis = some "" ∧
    ¬ strContains (strategyPrompt acmeState) "Não disponível" := by
  refine ⟨rfl, rfl, ?_⟩
  intro hin
  have hmem : 'í' ∈ (strategyPrompt acmeState).data :=
    hin.subset (by decide : 'í' ∈ "Não disponível".data)
  revert hmem
  simp only [strategyPrompt, strategyPromptPre, strategyPromptMid, strategyPromptTail,
    acmeState, initial_state, Option.getD_some, String.data_append, List.mem_append]
  decide

/-- C5 as amended: in the stage-3 prompt the "Não disponível" default is
substituted for `context_analysis` or `industry_analysis` exactly when the
key is absent from the state mapping; a present value — including the
empty string — is embedded verbatim in its place. -/
theorem C5_placeholder_only_when_absent (s : MeetingState) :
    (s.context_analysis = none →
      strategyPrompt s = strategyPromptPre ++ ("Não disponível" ++
        (strategyPromptMid ++ (s.industry_analysis.getD "Não disponível" ++
          strategyPromptTail s)))) ∧
    (∀ v, s.context_analysis = some v →
      strategyPrompt s = strategyPromptPre ++ (v ++
        (strategyPromptMid ++ (s.industry_analysis.getD "Não disponível" ++
          strategyPromptTail s)))) ∧
    (s.industry_analysis = none →
      ∃ a, strategyPrompt s = a ++ ("Não disponível" ++ strategyPromptTail s)) ∧
    (∀ v, s.industry_analysis = some v →
      ∃ a, strategyPrompt s = a ++ (v ++ strategyPromptTail s)) := by
  refine ⟨?_, ?_, ?_, ?_⟩
  · intro h
    simp only [strategyPrompt, h, Option.getD_none]
    exact str_append_assoc4 _ _ _ _ _
  · intro v h
    simp only [strategyPrompt, h, Option.getD_some]
    exact str_append_assoc4 _ _ _ _ _
  · intro h
    refine ⟨strategyPromptPre ++ (s.context_analysis.getD "Não disponível" ++ strategyPromptMid), ?_⟩
    simp only [strategyPrompt, h, Option.getD_none]
    apply String.ext
    simp [String.data_append, List.append_assoc]
  · intro v h
    refine ⟨strategyPromptPre ++ (s.context_analysis.getD "Não disponível" ++ strategyPromptMid), ?_⟩
    simp only [strategyPrompt, h, Option.getD_some]
    apply String.ext
    simp [String.data_append, List.append_assoc]

/-- Witness for the amended C5: on a state whose `context_analysis` key is
absent, the placeholder is embedded right after the fixed prompt prefix. -/
theorem C5_placeholder_only_when_absent_witness :
    strategyPrompt { acmeState with context_analysis := none } =
      strategyPromptPre ++ ("Não disponível" ++
        (strategyPromptMid ++
          (({ acmeState with context_analysis := none } : MeetingState).industry_analysis.getD "Não disponível" ++
            strategyPromptTail { acmeState with context_analysis := none }))) :=
  (C5_placeholder_only_when_absent { acmeState with context_analysis := none }).1 rfl

/-- C2 counterexample: the pipeline's output fields are exactly the
completion client's responses, so a completion stand-in that succeeds with
the empty string yields a final state whose `executive_brief` is the empty
string — refuting the claim that every run ends with all four output
fields non-empty. -/
theorem C2_nonempty_counterexample :
    (invoke stubSearch emptyCompletion acmeState).1.executive_brief = some "" := by
  rw [invoke_run_eq]
  decide

/-- C2 as amended: every run executes exactly the four stages in the
order context, industry, strategy, brief; and provided the completion
client never succeeds with the empty string, all four output fields of
the final state are present and non-empty (failure placeholders are
always non-empty). -/
theorem C2_run_order_and_outputs (search_tool : SearchClient)
    (llm : CompletionClient) (s : MeetingState)
    (hok : ∀ p r, llm p = .ok r → r ≠ "") :
    (invoke search_tool llm s).2 =
      [NodeName.context, NodeName.industry, NodeName.strategy, NodeName.brief] ∧
    (∃ v, (invoke search_tool llm s).1.context_analysis = some v ∧ v ≠ "") ∧
    (∃ v, (invoke search_tool llm s).1.industry_analysis = some v ∧ v ≠ "") ∧
    (∃ v, (invoke search_tool llm s).1.strategy = some v ∧ v ≠ "") ∧
    (∃ v, (invoke search_tool llm s).1.executive_brief = some v ∧ v ≠ "") := by
  rw [invoke_run_eq]
  refine ⟨rfl, ?_, ?_, ?_, ?_⟩
  · rw [state4_context_persist]
    cases h1 : search_tool (contextQuery s) with
    | error e =>
      refine ⟨contextFailMsg e, ?_, str_append_ne_empty e (by decide)⟩
      simp only [state1, update1]
      rw [context_node_search_err search_tool llm s e h1]
      rfl
    | ok r =>
      cases h2 : llm (contextPrompt s r) with
      | error e =>
        refine ⟨contextFailMsg e, ?_, str_append_ne_empty e (by decide)⟩
        simp only [state1, update1]
        rw [context_node_llm_err search_tool llm s r e h1 h2]
        rfl
      | ok v =>
        refine ⟨v, ?_, hok _ _ h2⟩
        simp only [state1, update1]
        rw [context_node_ok search_tool llm s r v h1 h2]
        rfl
  · rw [state4_industry_persist]
    cases h1 : search_tool (industryQuery (state1 search_tool llm s)) with
    | error e =>
      refine ⟨industryFailMsg e, ?_, str_append_ne_empty e (by decide)⟩
      simp only [state2, update2]
      rw [industry_node_search_err search_tool llm (state1 search_tool llm s) e h1]
      rfl
    | ok r =>
      cases h2 : llm (industryPrompt (state1 search_tool llm s) r) with
      | error e =>
        refine ⟨industryFailMsg e, ?_, str_append_ne_empty e (by decide)⟩
        simp only [state2, update2]
        rw [industry_node_llm_err search_tool llm (state1 search_tool llm s) r e h1 h2]
        rfl
      | ok v =>
        refine ⟨v, ?_, hok _ _ h2⟩
        simp only [state2, update2]
        rw [industry_node_ok search_tool llm (state1 search_tool llm s) r v h1 h2]
        rfl
  · rw [state4_strategy_persist]
    cases h1 : llm (strategyPrompt (state2 search_tool llm s)) with
    | error e =>
      refine ⟨strategyFailMsg e, ?_, str_append_ne_empty e (by decide)⟩
      simp only [state3, update3]
      rw [strategy_node_err llm (state2 search_tool llm s) e h1]
      rfl
    | ok v =>
      refine ⟨v, ?_, hok _ _ h1⟩
      simp only [state3, update3]
      rw [strategy_node_ok llm (state2 search_tool llm s) v h1]
      rfl
  · cases h1 : llm (briefPrompt (state3 search_tool llm s)) with
    | error e =>
      refine ⟨briefFailMsg e, ?_, str_append_ne_empty e (by decide)⟩
      simp only [state4, update4]
      rw [brief_node_err llm (state3 search_tool llm s) e h1]
      rfl
    | ok v =>
      refine ⟨v, ?_, hok _ _ h1⟩
      simp only [state4, update4]
      rw [brief_node_ok llm (state3 search_tool llm s) v h1]
      rfl

/-- Witness for the amended C2 at concrete stub clients: the executed
node sequence is exactly context, industry, strategy, brief. -/
theorem C2_run_order_and_outputs_witness :
    (invoke stubSearch stubCompletion acmeState).2 =
      [NodeName.context, NodeName.industry, NodeName.strategy, NodeName.brief] :=
  (C2_run_order_and_outputs stubSearch stubCompletion acmeState
    (fun p r h => by injection h with h2; subst h2; decide)).1

/-- C6 counterexample: with stub clients returning fixed canned text, the
final `executive_brief` equals the completion stub's canned text, which
contains neither "Acme" nor the section headers — refuting the claim that
the brief itself contains those substrings.  (They live in the stage-4
prompt, not in its output.) -/
theorem C6_brief_content_counterexample :
    (invoke stubSearch stubCompletion acmeState).1.executive_brief =
      some "CANNED COMPLETION TEXT" ∧
    ¬ strContains "CANNED COMPLETION TEXT" "Acme" ∧
    ¬ strContains "CANNED COMPLETION TEXT" briefHeader1 := by
  refine ⟨?_, by decide, by decide⟩
  rw [invoke_run_eq]
  decide

/-- C6 as amended: in the end-to-end scenario with stub clients, the
final `executive_brief` is the completion stub's canned text, while the
stage-4 prompt contains "Acme", contains "60", and contains the four
fixed section headers in order. -/
theorem C6_endtoend_prompt_structure :
    (invoke stubSearch stubCompletion acmeState).1.executive_brief =
      some "CANNED COMPLETION TEXT" ∧
    strContains (briefPrompt (state3 stubSearch stubCompletion acmeState)) "Acme" ∧
    strContains (briefPrompt (state3 stubSearch stubCompletion acmeState)) "60" ∧
    (∃ a b c d e, briefPrompt (state3 stubSearch stubCompletion acmeState) =
      a ++ (briefHeader1 ++ (b ++ (briefHeader2 ++ (c ++ (briefHeader3 ++
        (d ++ (briefHeader4 ++ e)))))))) := by
  refine ⟨?_, ?_, ?_, briefPrompt_headers _⟩
  · rw [invoke_run_eq]
    decide
  · have h := briefPrompt_contains_company (state3 stubSearch stubCompletion acmeState)
    rw [show (state3 stubSearch stubCompletion acmeState).company_name = "Acme" by decide] at h
    exact h
  · have h := briefPrompt_contains_duration (state3 stubSearch stubCompletion acmeState)
    rw [show toString (state3 stubSearch stubCompletion acmeState).duration = "60" by decide] at h
    exact h

/-- C1: every stage's external-call failure is contained inside that
stage: the stage functions are total (no exception escapes to the runner),
all four stages always execute in order, and for each stage the final
state's own output field is the failure placeholder exactly in the failure
cases and the completion client's response in the success case; every
placeholder starts with the warning marker and embeds the error detail. -/
theorem C1_stage_failure_containment (search_tool : SearchClient)
    (llm : CompletionClient) (s : MeetingState) :
    (invoke search_tool llm s).2 =
      [NodeName.context, NodeName.industry, NodeName.strategy, NodeName.brief] ∧
    (invoke search_tool llm s).1 = state4 search_tool llm s ∧
    (∀ e, search_tool (contextQuery s) = .error e →
      (state4 search_tool llm s).context_analysis = some (contextFailMsg e)) ∧
    (∀ r e, search_tool (contextQuery s) = .ok r → llm (contextPrompt s r) = .error e →
      (state4 search_tool llm s).context_analysis = some (contextFailMsg e)) ∧
    (∀ r v, search_tool (contextQuery s) = .ok r → llm (contextPrompt s r) = .ok v →
      (state4 search_tool llm s).context_analysis = some v) ∧
    (∀ e, search_tool (industryQuery s) = .error e →
      (state4 search_tool llm s).industry_analysis = some (industryFailMsg e)) ∧
    (∀ r e, search_tool (industryQuery s) = .ok r → llm (industryPrompt s r) = .error e →
      (state4 search_tool llm s).industry_analysis = some (industryFailMsg e)) ∧
    (∀ r v, search_tool (industryQuery s) = .ok r → llm (industryPrompt s r) = .ok v →
      (state4 search_tool llm s).industry_analysis = some v) ∧
    (∀ e, llm (strategyPrompt (state2 search_tool llm s)) = .error e →
      (state4 search_tool llm s).strategy = some (strategyFailMsg e)) ∧
    (∀ v, llm (strategyPrompt (state2 search_tool llm s)) = .ok v →
      (state4 search_tool llm s).strategy = some v) ∧
    (∀ e, llm (briefPrompt (state3 search_tool llm s)) = .error e →
      (state4 search_tool llm s).executive_brief = some (briefFailMsg e)) ∧
    (∀ v, llm (briefPrompt (state3 search_tool llm s)) = .ok v →
      (state4 search_tool llm s).executive_brief = some v) ∧
    (∀ e, strStartsWith (contextFailMsg e) "⚠️" ∧ strContains (contextFailMsg e) e) ∧
    (∀ e, strStartsWith (industryFailMsg e) "⚠️" ∧ strContains (industryFailMsg e) e) ∧
    (∀ e, strStartsWith (strategyFailMsg e) "⚠️" ∧ strContains (strategyFailMsg e) e) ∧
    (∀ e, strStartsWith (briefFailMsg e) "⚠️" ∧ strContains (briefFailMsg e) e) := by
  refine ⟨by rw [invoke_run_eq], by rw [invoke_run_eq], ?_, ?_, ?_, ?_, ?_, ?_, ?_, ?_, ?_, ?_,
    fun e => ⟨strStartsWith_mono e (by decide), strContains_mono_right _ (strContains_self e)⟩,
    fun e => ⟨strStartsWith_mono e (by decide), strContains_mono_right _ (strContains_self e)⟩,
    fun e => ⟨strStartsWith_mono e (by decide), strContains_mono_right _ (strContains_self e)⟩,
    fun e => ⟨strStartsWith_mono e (by decide), strContains_mono_right _ (strContains_self e)⟩⟩
  · intro e h
    rw [state4_context_persist]
    simp only [state1, update1]
    rw [context_node_search_err search_tool llm s e h]
    rfl
  · intro r e h1 h2
    rw [state4_context_persist]
    simp only [state1, update1]
    rw [context_node_llm_err search_tool llm s r e h1 h2]
    rfl
  · intro r v h1 h2
    rw [state4_context_persist]
    simp only [state1, update1]
    rw [context_node_ok search_tool llm s r v h1 h2]
    rfl
  · intro e h
    rw [state4_industry_persist]
    have h1 : search_tool (industryQuery (state1 search_tool llm s)) = .error e := by
      rw [industryQuery_state1]
      exact h
    simp only [state2, update2]
    rw [industry_node_search_err search_tool llm (state1 search_tool llm s) e h1]
    rfl
  · intro r e h1 h2
    rw [state4_industry_persist]
    have h1a : search_tool (industryQuery (state1 search_tool llm s)) = .ok r := by
      rw [industryQuery_state1]
      exact h1
    have h2a : llm (industryPrompt (state1 search_tool llm s) r) = .error e := by
      rw [industryPrompt_state1]
      exact h2
    simp only [state2, update2]
    rw [industry_node_llm_err search_tool llm (state1 search_tool llm s) r e h1a h2a]
    rfl
  · intro r v h1 h2
    rw [state4_industry_persist]
    have h1a : search_tool (industryQuery (state1 search_tool llm s)) = .ok r := by
      rw [industryQuery_state1]
      exact h1
    have h2a : llm (industryPrompt (state1 search_tool llm s) r) = .ok v := by
      rw [industryPrompt_state1]
      exact h2
    simp only [state2, update2]
    rw [industry_node_ok search_tool llm (state1 search_tool llm s) r v h1a h2a]
    rfl
  · intro e h
    rw [state4_strategy_persist]
    simp only [state3, update3]
    rw [strategy_node_err llm (state2 search_tool llm s) e h]
    rfl
  · intro v h
    rw [state4_strategy_persist]
    simp only [state3, update3]
    rw [strategy_node_ok llm (state2 search_tool llm s) v h]
    rfl
  · intro e h
    simp only [state4, update4]
    rw [brief_node_err llm (state3 search_tool llm s) e h]
    rfl
  · intro v h
    simp only [state4, update4]
    rw [brief_node_ok llm (state3 search_tool llm s) v h]
    rfl

/-- Witness for C1: with a search stand-in that always raises "boom" and
a completion stand-in that always succeeds, stage 1's output field holds
the warning placeholder embedding "boom" while stage 4 still produces the
completion's text. -/
theorem C1_stage_failure_containment_witness :
    (state4 failingSearch stubCompletion acmeState).context_analysis =
      some (contextFailMsg "boom") ∧
    (state4 failingSearch stubCompletion acmeState).executive_brief =
      some "CANNED COMPLETION TEXT" ∧
    strStartsWith (contextFailMsg "boom") "⚠️" ∧
    strContains (contextFailMsg "boom") "boom" := by
  have h := C1_stage_failure_containment failingSearch stubCompletion acmeState
  refine ⟨h.2.2.1 "boom" rfl, ?_, (h.2.2.2.2.2.2.2.2.2.2.2.2.1 "boom").1,
    (h.2.2.2.2.2.2.2.2.2.2.2.2.1 "boom").2⟩
  exact h.2.2.2.2.2.2.2.2.2.2.2.1 "CANNED COMPLETION TEXT" rfl

end MeetApp
